import Mathlib

/-!
Shallow embedding of the RAMWARE well-test calculation engine
(`WellTestCalculator`, `RamWareApp.perform_calculations`,
`RamWareApp.calculate_averages` in `src/ramware_app.py`), with theorems
settling the frozen claims about it.

Python floats are modelled as exact reals.  `try: ... except: <default>`
blocks are modelled by total functions that return the documented default
on the inputs where the Python body would raise (division by zero,
`math.sqrt` of a negative number, and so on); these fault conditions are
written as explicit guards.  Two Python behaviours are outside the model
and are noted where relevant: `OverflowError` from `math.exp` on huge
arguments, and the fact that `x ** y` with `x < 0` and non-integral `y`
produces a complex number instead of raising.  No claim's inputs reach
either situation.
-/

noncomputable section

open Real

/-- `WellTestCalculator.calculate_oil_api_60f` (ramware_app.py:50-62).
The body is pure arithmetic and comparison, so the `except` branch
(returning `oil_api` unchanged) is unreachable. -/
def calculate_oil_api_60f (oil_api oil_temp : ℝ) : ℝ :=
  let t := oil_temp * 9 / 5 + 32
  if t ≤ 60 then oil_api
  else oil_api - 0.00035 * (t - 60) * (oil_api - 10)

/-- `WellTestCalculator.calculate_vcf_sep` (ramware_app.py:64-74).
Pure arithmetic plus `math.exp`; no fault is reachable in the real model
(Python's `OverflowError` on huge exponents is not modelled). -/
def calculate_vcf_sep (sep_temp oil_api_60f : ℝ) : ℝ :=
  let t := sep_temp * 9 / 5 + 32
  let delta_t := t - 60
  let alpha := 0.00034878 - 0.00000091 * oil_api_60f
  let beta := 0.0000000025
  Real.exp (-(alpha * delta_t + beta * delta_t ^ 2))

/-- `WellTestCalculator.calculate_shrinkage_factor` (ramware_app.py:76-99).
Pure arithmetic and comparisons; the `except` branch is unreachable. -/
def calculate_shrinkage_factor (gor2 sep_p oil_api_60f : ℝ) : ℝ :=
  let c0 : ℝ :=
    if oil_api_60f > 35 then 0.00000025
    else if 25 ≤ oil_api_60f ∧ oil_api_60f ≤ 35 then 0.0000003
    else 0.00000035
  let c : ℝ :=
    if gor2 < 100 ∧ sep_p < 50 then 0.00000005
    else if gor2 < 100 then 0.0000001
    else if sep_p < 50 then 0.0000002
    else c0
  1 - c * gor2 * sep_p

/-- `WellTestCalculator._vasquez_beggs` (ramware_app.py:138-146).  Note
that this helper itself adds 14.7 psi and converts °C→°F again, on top of
whatever its caller already did.  The guard models the Python
`ZeroDivisionError` (caught, default 0.0) when the shifted temperature
makes the denominator zero. -/
def vasquez_beggs (sg_gas sep_p oil_api_60f sep_temp c1 c2 c3 : ℝ) : ℝ :=
  let p := sep_p + 14.7
  let t := sep_temp * 9 / 5 + 32
  if t + 460 = 0 then 0.0
  else sg_gas * c1 * p ^ c2 * Real.exp (c3 * oil_api_60f / (t + 460))

/-- `WellTestCalculator._standings` (ramware_app.py:148-156).  Adds 14.7
psi again on top of the caller's conversion. -/
def standings (sg_gas sep_p oil_api_60f sep_temp : ℝ) : ℝ :=
  let p := sep_p + 14.7
  let e := 0.0125 * oil_api_60f - 0.00091 * sep_temp
  sg_gas * ((p * (10 : ℝ) ^ e) / 18.2) ^ (1.204 : ℝ)

/-- `WellTestCalculator._katz` (ramware_app.py:158-166).  Adds 14.7 psi
again on top of the caller's conversion. -/
def katz (sg_gas sep_p oil_api_60f sep_temp : ℝ) : ℝ :=
  let p := sep_p + 14.7
  let e := 0.01245 * oil_api_60f - 0.00091 * sep_temp
  0.224 * sg_gas * p ^ (1.182 : ℝ) * (10 : ℝ) ^ e

/-- `WellTestCalculator.calculate_gor2` (ramware_app.py:101-136).  The
function first adds 14.7 psi and converts °C→°F; the `'VASQUEZ_BEGGS'`
branch then repeats both conversions (lines 118-119) before calling the
helper, which repeats them a third time.  In the `'API'` branch the helper
is called without coefficients, so Python's default arguments
`c1=0.0178, c2=1.1870, c3=23.931` apply; they are passed explicitly here. -/
def calculate_gor2 (oil_api_60f sg_gas sep_p sep_temp : ℝ) (method : String) : ℝ :=
  let p := sep_p + 14.7
  let t := sep_temp * 9 / 5 + 32
  if method = "API" then
    if oil_api_60f > 35 then
      vasquez_beggs sg_gas p oil_api_60f t 0.0178 1.1870 23.931
    else if 25 ≤ oil_api_60f ∧ oil_api_60f ≤ 35 then
      standings sg_gas p oil_api_60f t
    else
      katz sg_gas p oil_api_60f t
  else if method = "VASQUEZ_BEGGS" then
    let p2 := p + 14.7
    let t2 := t * 9 / 5 + 32
    if oil_api_60f ≤ 30 then
      vasquez_beggs sg_gas p2 oil_api_60f t2 0.0362 1.0937 25.724
    else
      vasquez_beggs sg_gas p2 oil_api_60f t2 0.0178 1.1870 23.931
  else if method = "STANDINGS" then
    standings sg_gas p oil_api_60f t
  else if method = "KATZ" then
    katz sg_gas p oil_api_60f t
  else 0.0

/-- `WellTestCalculator.calculate_fpv` (ramware_app.py:201-229).  The
guards model the Python faults the `except` catches: if a pseudo-critical
quantity makes a denominator zero (`ZeroDivisionError`), or `z ≤ 0`
(`math.sqrt` domain error at `z < 0`, `1/0` at `z = 0`), the default 1.0
is returned.  Negative mole fractions would make `a ** 0.9` or
`y_h2s ** 0.5` complex in Python and `math.sqrt` then raises `TypeError`,
again caught: guarded the same way. -/
def calculate_fpv (sg_gas p t h2s co2 : ℝ) : ℝ :=
  let y_h2s := h2s / 1000000
  let y_co2 := co2 / 1000000
  let tpc := 168 + 325 * sg_gas - 12.5 * sg_gas ^ 2
  let ppc := 677 + 15 * sg_gas - 37.5 * sg_gas ^ 2
  let a := y_h2s + y_co2
  if a < 0 ∨ y_h2s < 0 then 1.0
  else
    let epsilon := 120 * (a ^ (0.9 : ℝ) - a ^ (1.6 : ℝ)) +
      15 * (y_h2s ^ (0.5 : ℝ) - y_h2s ^ 4)
    let tpc_corr := tpc - epsilon
    let denom := tpc + y_h2s * (1 - y_h2s) * epsilon
    if denom = 0 then 1.0
    else
      let ppc_corr := ppc * tpc_corr / denom
      if tpc_corr = 0 then 1.0
      else if ppc_corr = 0 then 1.0
      else
        let tpr := (t + 460) / tpc_corr
        let ppr := p / ppc_corr
        let z := 1 - 3.52 * ppr / (10 : ℝ) ^ (0.9813 * tpr) +
          0.274 * ppr ^ 2 / (10 : ℝ) ^ (0.8157 * tpr)
        if z ≤ 0 then 1.0 else 1 / Real.sqrt z

/-- `WellTestCalculator.calculate_gas_flow` (ramware_app.py:168-199).
Guards model the Python faults caught by the `except` (default 0.0):
`line_bore = 0` (division by zero in `beta`), `1 - beta⁴ ≤ 0`
(`math.sqrt` domain error, or division by `sqrt 0`), `sg_gas ≤ 0`
(`math.sqrt` domain error, or `1/0`), `p1 = 0` (division by zero in the
expansion factor), `gas_t + 460 ≤ 0` (division by zero or `math.sqrt`
domain error in the flowing-temperature factor), and `hw * pf < 0`
(`math.sqrt` domain error).  A negative `beta` would make `beta ** 2.1`
complex in Python; that path is modelled as a fault as well. -/
def calculate_gas_flow (hw sep_p gas_t sg_gas orifice_d line_bore h2s co2 : ℝ) : ℝ :=
  if line_bore = 0 then 0.0
  else
    let beta := orifice_d / line_bore
    if beta < 0 then 0.0
    else
      let cd := 0.5959 + 0.0312 * beta ^ (2.1 : ℝ) - 0.1840 * beta ^ 8
      if 1 - beta ^ 4 ≤ 0 then 0.0
      else
        let fb := 338.17 * orifice_d ^ 2 * cd / Real.sqrt (1 - beta ^ 4)
        if sg_gas ≤ 0 then 0.0
        else
          let fg := 1 / Real.sqrt sg_gas
          let pf := sep_p + 14.7
          let delta_p_psi := hw * 0.03613
          let p1 := pf + delta_p_psi
          if p1 = 0 then 0.0
          else
            let y2 := 1 - (0.41 + 0.35 * beta ^ 4) * delta_p_psi / (1.28 * p1)
            if gas_t + 460 ≤ 0 then 0.0
            else
              let ftf := Real.sqrt (520 / (gas_t + 460))
              let fpv := calculate_fpv sg_gas p1 gas_t h2s co2
              if hw * pf < 0 then 0.0
              else 24 * fb * fg * y2 * ftf * fpv * Real.sqrt (hw * pf) / 1000

/-- `WellTestCalculator.calculate_three_phase_flow` (ramware_app.py:231-239).
Pure arithmetic; the `except` branch is unreachable. -/
def calculate_three_phase_flow (vs_oil vs_water wio meter_factor sf vcf_sep : ℝ) :
    ℝ × ℝ :=
  (vs_oil * (1 - wio) * meter_factor * sf * vcf_sep * 48,
   (vs_water * meter_factor + vs_oil * wio) * 48)

/-- `WellTestCalculator.calculate_two_phase_flow` (ramware_app.py:241-249).
Pure arithmetic; the `except` branch is unreachable. -/
def calculate_two_phase_flow (vs_liquid bsw meter_factor sf vcf_sep : ℝ) : ℝ × ℝ :=
  (vs_liquid * (1 - bsw) * meter_factor * sf * vcf_sep * 48,
   vs_liquid * meter_factor * bsw * 48)

/-- `WellTestCalculator.calculate_for_gas_lift` (ramware_app.py:251-260).
The division is guarded by `q_oil > 0`, so the `except` branch is
unreachable. -/
def calculate_for_gas_lift (q_gas q_gas_inj q_oil gor2 : ℝ) : ℝ × ℝ × ℝ :=
  let formation_q_gas := max (q_gas - q_gas_inj) 0
  let gor1_formation := if q_oil > 0 then formation_q_gas * 1000 / q_oil else 0
  (formation_q_gas, gor1_formation, gor1_formation + gor2)

/-- The test-level configuration dictionary `params` that
`RamWareApp.perform_calculations` reads (ramware_app.py:1530-1627);
field names follow the dictionary keys. -/
structure TestParameters where
  oil_api : ℝ
  oil_temp : ℝ
  meter_factor : ℝ
  separation_type : String
  production_type : String
  gor2_method : String
  sg_gas : ℝ
  orifice_diameter : ℝ
  line_bore : ℝ
  h2s : ℝ
  co2 : ℝ

/-- One `entry` dictionary of `time_series`.  The Python code reads the
numeric cells with `entry.get(key, 0)`, so a missing cell is the value 0;
the model makes every field total. -/
structure TimeSeriesEntry where
  time : String
  meter_oil : ℝ
  meter_water : ℝ
  meter_liquid : ℝ
  wio : ℝ
  bsw : ℝ
  oil_t : ℝ
  sep_p : ℝ
  gas_t : ℝ
  gas_dp : ℝ
  q_gas_inj : ℝ

instance : Inhabited TimeSeriesEntry :=
  ⟨⟨"", 0, 0, 0, 0, 0, 0, 0, 0, 0, 0⟩⟩

/-- The three mutable accumulators of `perform_calculations`
(ramware_app.py:1537-1539), carried across loop iterations. -/
structure MeterState where
  prev_meter_oil : ℝ
  prev_meter_water : ℝ
  prev_meter_liquid : ℝ

/-- One `result` dictionary appended per entry.  The four gas-lift keys
are written only when `production_type == "GAS LIFT"`, hence `Option`. -/
structure CalculationResult where
  time : String
  q_oil : ℝ
  q_water : ℝ
  total_q : ℝ
  q_gas : ℝ
  gor1 : ℝ
  gor2 : ℝ
  total_gor : ℝ
  q_gas_inj : Option ℝ
  formation_gas : Option ℝ
  gor1_formation : Option ℝ
  total_gor_formation : Option ℝ

/-- The API-at-60°F value `perform_calculations` computes
(ramware_app.py:1563-1565).  The call site passes
`params["oil_temp"]` first and `params["oil_api"]` second — the reverse
of `calculate_oil_api_60f`'s declared `(oil_api, oil_temp)` order. -/
def usedOilApi60 (params : TestParameters) : ℝ :=
  calculate_oil_api_60f params.oil_temp params.oil_api

/-- The guarded GOR1 expression of ramware_app.py:1610:
`(q_gas * 1000) / q_oil if q_oil > 0 else 0`. -/
def gor1Of (q_gas q_oil : ℝ) : ℝ :=
  if q_oil > 0 then q_gas * 1000 / q_oil else 0

/-- One iteration of the `perform_calculations` loop
(ramware_app.py:1542-1627): from the carried meter state and the current
entry, the updated state and the entry's result row.  In Python the
branch not taken leaves its delta names unbound and its accumulators
untouched; here both deltas are written down but only the branch selected
by `separation_type` is used, and the untaken branch's accumulators are
carried unchanged — the observable behaviour is identical.  The gas-lift
triple is likewise always computed but only stored when
`production_type = "GAS LIFT"`. -/
def processEntry (params : TestParameters) (st : MeterState) (entry : TimeSeriesEntry) :
    MeterState × CalculationResult :=
  let three := params.separation_type = "THREE PHASES"
  let vs_oil := entry.meter_oil - st.prev_meter_oil
  let vs_water := entry.meter_water - st.prev_meter_water
  let wio := entry.wio / 100
  let vs_liquid := entry.meter_liquid - st.prev_meter_liquid
  let bsw := entry.bsw / 100
  let st' : MeterState :=
    if three then
      { st with prev_meter_oil := entry.meter_oil, prev_meter_water := entry.meter_water }
    else
      { st with prev_meter_liquid := entry.meter_liquid }
  let sep_temp := entry.oil_t
  let oil_api_60f := usedOilApi60 params
  let vcf_sep := calculate_vcf_sep sep_temp oil_api_60f
  let sep_p := entry.sep_p
  let gor2 := calculate_gor2 oil_api_60f params.sg_gas sep_p sep_temp params.gor2_method
  let sf := calculate_shrinkage_factor gor2 sep_p oil_api_60f
  let qow :=
    if three then calculate_three_phase_flow vs_oil vs_water wio params.meter_factor sf vcf_sep
    else calculate_two_phase_flow vs_liquid bsw params.meter_factor sf vcf_sep
  let q_oil := qow.1
  let q_water := qow.2
  let q_gas := calculate_gas_flow entry.gas_dp sep_p entry.gas_t params.sg_gas
    params.orifice_diameter params.line_bore params.h2s params.co2
  let gor1 := gor1Of q_gas q_oil
  let gaslift := params.production_type = "GAS LIFT"
  let gl := calculate_for_gas_lift q_gas entry.q_gas_inj q_oil gor2
  (st',
   { time := entry.time
     q_oil := q_oil
     q_water := q_water
     total_q := q_oil + q_water
     q_gas := q_gas
     gor1 := gor1
     gor2 := gor2
     total_gor := gor1 + gor2
     q_gas_inj := if gaslift then some entry.q_gas_inj else none
     formation_gas := if gaslift then some gl.1 else none
     gor1_formation := if gaslift then some gl.2.1 else none
     total_gor_formation := if gaslift then some gl.2.2 else none })

/-- The loop of `perform_calculations` as a fold producing the result
list, threading the meter state. -/
def runEntries (params : TestParameters) : MeterState → List TimeSeriesEntry →
    List CalculationResult
  | _, [] => []
  | st, e :: es =>
      (processEntry params st e).2 :: runEntries params (processEntry params st e).1 es

/-- The meter state after processing a list of entries. -/
def foldState (params : TestParameters) (st : MeterState) (es : List TimeSeriesEntry) :
    MeterState :=
  es.foldl (fun s e => (processEntry params s e).1) st

/-- `RamWareApp.perform_calculations` (ramware_app.py:1530-1629): the
accumulators start at 0.0 and the entries are processed in input order. -/
def perform_calculations (params : TestParameters) (time_series : List TimeSeriesEntry) :
    List CalculationResult :=
  runEntries params ⟨0, 0, 0⟩ time_series

/-- One result row as `calculate_averages` sees it: the `"Time"` label and
the numeric fields, as an association list in insertion order. -/
structure ResultRow where
  time : String
  fields : List (String × ℝ)

/-- `r[key]` on a row's numeric fields.  Rows produced by
`perform_calculations` all share one key set, so the 0 default for a
missing key (a Python `KeyError`, which `calculate_averages` would not
catch) is never consulted in the claims below. -/
def lookupField (fields : List (String × ℝ)) (k : String) : ℝ :=
  ((fields.find? (fun p => p.1 == k)).map Prod.snd).getD 0

/-- `RamWareApp.calculate_averages` (ramware_app.py:1632-1644), as a
function from the result rows and the previously stored averages to the
stored averages afterwards.  `if not results: return` leaves the stored
averages untouched; otherwise every key of the first row except `"Time"`
(here the separate `time` field) is mapped to the unweighted mean of that
key's values across all rows. -/
def calculate_averages (results : List ResultRow) (stored : List (String × ℝ)) :
    List (String × ℝ) :=
  match results with
  | [] => stored
  | r0 :: _ =>
      (r0.fields.map Prod.fst).map (fun k =>
        (k, (results.map (fun r => lookupField r.fields k)).sum / (results.length : ℝ)))

/-- The coefficient selection of `shrinkageFactor` as the spec words it:
an API tier (>35 → 2.5e-7; 25–35 → 3.0e-7; <25 → 3.5e-7), then the
overrides `gor2<100 ∧ sepPsig<50 → 5e-8`, `gor2<100 → 1e-7`,
`sepPsig<50 → 2e-7` in that precedence order.  For comparison with
`calculate_shrinkage_factor`. -/
def shrinkageCoeffSpec (gor2 sep_p oil_api_60f : ℝ) : ℝ :=
  let tier : ℝ :=
    if oil_api_60f > 35 then 0.00000025
    else if 25 ≤ oil_api_60f ∧ oil_api_60f ≤ 35 then 0.0000003
    else 0.00000035
  if gor2 < 100 ∧ sep_p < 50 then 0.00000005
  else if gor2 < 100 then 0.0000001
  else if sep_p < 50 then 0.0000002
  else tier

/-- The Standing branch of `gor2` as the claim and the spec word it:
gauge pressure converted to absolute exactly once (`pAbs = sepPsig +
14.7`), temperature converted once, result
`sgGas·((pAbs·10^e)/18.2)^1.204` with `e = 0.0125·api60 − 0.00091·tempF`.
For comparison with the source's `calculate_gor2`. -/
def standingSpec (api60 sgGas sepPsig sepTempC : ℝ) : ℝ :=
  let pAbs := sepPsig + 14.7
  let tempF := sepTempC * 9 / 5 + 32
  let e := 0.0125 * api60 - 0.00091 * tempF
  sgGas * ((pAbs * (10 : ℝ) ^ e) / 18.2) ^ (1.204 : ℝ)

/-- Index of the previous entry's reading: 0 before the first entry,
entry `j`'s reading before entry `j+1`. -/
def prevOf (f : TimeSeriesEntry → ℝ) (es : List TimeSeriesEntry) : ℕ → ℝ
  | 0 => 0
  | j + 1 => ((es.get? j).map f).getD 0

/-- Parameters of the worked two-phase example. -/
def exampleParams : TestParameters :=
  ⟨40, 15, 1, "TWO PHASES", "NATURAL FLOW", "API", 0.65, 2, 4, 0, 0⟩

/-- First example entry: cumulative liquid meter 100 bbl. -/
def exampleEntry1 : TimeSeriesEntry := ⟨"00:30", 0, 0, 100, 0, 0, 140 / 9, 0, 25, 0, 0⟩

/-- Second example entry: cumulative liquid meter 60 bbl — a decreasing
reading, so the differenced interval volume is 60 − 100 = −40 bbl. -/
def exampleEntry2 : TimeSeriesEntry := ⟨"01:00", 0, 0, 60, 0, 0, 140 / 9, 0, 25, 0, 0⟩


/-- C1: the claim says the API-at-60°F value fed into the VCF, GOR2 and
shrinkage steps is `calculate_oil_api_60f (parameters.oilApi,
parameters.oilTemp)`.  The call site (ramware_app.py:1563-1565) passes
the arguments the other way around: for `oilApi = 40`, `oilTemp = 20 °C`
the loop feeds `calculate_oil_api_60f 20 40 = 19.846` (the temperature
"corrected" as if it were an API gravity), not
`calculate_oil_api_60f 40 20 = 39.916` as the claim states. -/
theorem C1_oil_api_args_swapped :
    usedOilApi60 ⟨40, 20, 1, "TWO PHASES", "NATURAL FLOW", "API", 0.65, 2, 4, 0, 0⟩
        = 19.846
    ∧ calculate_oil_api_60f 40 20 = 39.916 := by
  constructor
  · show calculate_oil_api_60f 20 40 = 19.846
    norm_num [calculate_oil_api_60f]
  · norm_num [calculate_oil_api_60f]

/-- C4: `calculate_shrinkage_factor` returns `1 − c·gor2·sepP` with `c`
chosen by API tier and then overridden with low-GOR/low-pressure
precedence exactly as the spec describes (`shrinkageCoeffSpec`); at
`gor2 = 50`, `sepP = 30`, `api60 = 40` the combined branch `c = 5e-8`
wins and the result is `1 − 5e-8·50·30`. -/
theorem C4_shrinkage_factor :
    (∀ gor2 sep_p oil_api_60f : ℝ,
        calculate_shrinkage_factor gor2 sep_p oil_api_60f
          = 1 - shrinkageCoeffSpec gor2 sep_p oil_api_60f * gor2 * sep_p)
    ∧ shrinkageCoeffSpec 50 30 40 = 0.00000005
    ∧ calculate_shrinkage_factor 50 30 40 = 1 - 0.00000005 * 50 * 30 := by
  refine ⟨fun gor2 sep_p oil_api_60f => rfl, ?_, ?_⟩
  · norm_num [shrinkageCoeffSpec]
  · norm_num [calculate_shrinkage_factor]

/-- C7: under gas lift, `formationGas = max(Qgas − Qinj, 0)`, hence never
negative; in particular `Qgas = 500`, `Qinj = 800` yields 0, not −300. -/
theorem C7_formation_gas_clamped :
    (∀ q_gas q_gas_inj q_oil gor2 : ℝ,
        (calculate_for_gas_lift q_gas q_gas_inj q_oil gor2).1 = max (q_gas - q_gas_inj) 0
        ∧ 0 ≤ (calculate_for_gas_lift q_gas q_gas_inj q_oil gor2).1)
    ∧ ∀ q_oil gor2 : ℝ, (calculate_for_gas_lift 500 800 q_oil gor2).1 = 0 := by
  refine ⟨fun q_gas q_gas_inj q_oil gor2 => ⟨rfl, le_max_right _ 0⟩, fun q_oil gor2 => ?_⟩
  show max ((500 : ℝ) - 800) 0 = 0
  norm_num

/-- C6: every result row's GOR1 is the guarded quotient
`Qgas·1000/Qoil if Qoil > 0 else 0`, and the gas-lift
`GOR1-formation` is guarded the same way, so both are 0 whenever
`Qoil = 0` and no division with a zero denominator is performed. -/
theorem C6_gor1_guarded :
    (∀ (params : TestParameters) (st : MeterState) (entry : TimeSeriesEntry),
        ((processEntry params st entry).2).gor1
          = gor1Of ((processEntry params st entry).2).q_gas
              ((processEntry params st entry).2).q_oil)
    ∧ (∀ q_gas q_oil : ℝ,
        (q_oil > 0 → gor1Of q_gas q_oil = q_gas * 1000 / q_oil)
        ∧ (¬ q_oil > 0 → gor1Of q_gas q_oil = 0))
    ∧ (∀ q_gas q_gas_inj q_oil gor2 : ℝ,
        (q_oil > 0 → (calculate_for_gas_lift q_gas q_gas_inj q_oil gor2).2.1
            = max (q_gas - q_gas_inj) 0 * 1000 / q_oil)
        ∧ (¬ q_oil > 0 → (calculate_for_gas_lift q_gas q_gas_inj q_oil gor2).2.1 = 0)) := by
  refine ⟨fun params st entry => rfl, fun q_gas q_oil => ⟨fun h => if_pos h, fun h => if_neg h⟩,
    fun q_gas q_gas_inj q_oil gor2 => ⟨fun h => if_pos h, fun h => if_neg h⟩⟩

/-- Witness for C6 at a concrete input with `Qoil = 0`. -/
theorem C6_gor1_guarded_witness :
    gor1Of 7 0 = 0 ∧ (calculate_for_gas_lift 7 3 0 11).2.1 = 0 :=
  ⟨(C6_gor1_guarded.2.1 7 0).2 (by norm_num),
   (C6_gor1_guarded.2.2 7 3 0 11).2 (by norm_num)⟩

/-- C9: the VCF is `exp(−(α·Δt + β·Δt²))` with
`α = 0.00034878 − 0.00000091·api60`, `β = 2.5e-9`,
`Δt = tempF − 60`; it is exactly 1 when the separator temperature
converts to 60 °F, and lies in `(0, 1]` whenever `Δt ≥ 0` and `α > 0`. -/
theorem C9_vcf_range (sep_temp oil_api_60f : ℝ) :
    calculate_vcf_sep sep_temp oil_api_60f
        = Real.exp (-((0.00034878 - 0.00000091 * oil_api_60f) * (sep_temp * 9 / 5 + 32 - 60)
            + 0.0000000025 * (sep_temp * 9 / 5 + 32 - 60) ^ 2))
    ∧ (sep_temp * 9 / 5 + 32 = 60 → calculate_vcf_sep sep_temp oil_api_60f = 1)
    ∧ (0 ≤ sep_temp * 9 / 5 + 32 - 60 → 0 < 0.00034878 - 0.00000091 * oil_api_60f →
        0 < calculate_vcf_sep sep_temp oil_api_60f
        ∧ calculate_vcf_sep sep_temp oil_api_60f ≤ 1) := by
  refine ⟨rfl, fun h => ?_, fun hdt ha => ⟨Real.exp_pos _, ?_⟩⟩
  · simp only [calculate_vcf_sep]
    rw [h]
    norm_num
  · have hx : 0 ≤ (0.00034878 - 0.00000091 * oil_api_60f) * (sep_temp * 9 / 5 + 32 - 60)
        + 0.0000000025 * (sep_temp * 9 / 5 + 32 - 60) ^ 2 := by
      have h1 : 0 ≤ (0.00034878 - 0.00000091 * oil_api_60f) * (sep_temp * 9 / 5 + 32 - 60) :=
        mul_nonneg ha.le hdt
      positivity
    calc calculate_vcf_sep sep_temp oil_api_60f
        ≤ Real.exp 0 := Real.exp_le_exp.mpr (neg_nonpos.mpr hx)
      _ = 1 := Real.exp_zero

/-- Witness for C9: identity at 140/9 °C (= 60 °F) and the `(0,1]` range
at 20 °C, API 40. -/
theorem C9_vcf_range_witness :
    calculate_vcf_sep (140 / 9) 40 = 1
    ∧ 0 < calculate_vcf_sep 20 40 ∧ calculate_vcf_sep 20 40 ≤ 1 :=
  ⟨(C9_vcf_range (140 / 9) 40).2.1 (by norm_num),
   (C9_vcf_range 20 40).2.2 (by norm_num) (by norm_num)⟩

/-- C10: with differential head `hw = 0` and well-formed remaining inputs
(`line_bore > 0`, `0 < orifice_d < line_bore`, `sg_gas > 0`,
`gas_t > −460 °F`, `sep_p ≥ 0` psig), `calculate_gas_flow` takes no
fault branch and returns exactly 0: the rate carries the factor
`√(hw·Pf) = 0` and the expansion factor reduces to 1. -/
theorem C10_zero_dp_zero_gas (sep_p gas_t sg_gas orifice_d line_bore h2s co2 : ℝ)
    (hbore : 0 < line_bore) (hd : 0 < orifice_d) (hdb : orifice_d < line_bore)
    (hsg : 0 < sg_gas) (ht : -460 < gas_t) (hp : 0 ≤ sep_p) :
    calculate_gas_flow 0 sep_p gas_t sg_gas orifice_d line_bore h2s co2 = 0 := by
  have hbeta : 0 < orifice_d / line_bore := div_pos hd hbore
  have hb1 : orifice_d / line_bore < 1 := (div_lt_one hbore).mpr hdb
  have h4 : (orifice_d / line_bore) ^ 4 < 1 := pow_lt_one₀ hbeta.le hb1 (by norm_num)
  simp only [calculate_gas_flow]
  rw [if_neg hbore.ne', if_neg (not_lt.mpr hbeta.le), if_neg (not_le.mpr (by linarith)),
    if_neg (not_le.mpr hsg), if_neg (show ¬(sep_p + 14.7 + 0 * 0.03613 = 0) by
      intro h; nlinarith), if_neg (not_le.mpr (by linarith)),
    if_neg (not_lt.mpr (by nlinarith))]
  simp

/-- Witness for C10 at a concrete zero-DP entry. -/
theorem C10_zero_dp_zero_gas_witness :
    calculate_gas_flow 0 100 25 0.65 2 4 0 0 = 0 :=
  C10_zero_dp_zero_gas 100 25 0.65 2 4 0 0 (by norm_num) (by norm_num) (by norm_num)
    (by norm_num) (by norm_num) (by norm_num)

/-- C2: the claim says `gor2` with method AUTO (`"API"`) returns exactly
the value of the explicit `"VASQUEZ_BEGGS"` call when `api60 > 35`.  It
does not: the explicit branch (ramware_app.py:118-119) adds 14.7 psi and
re-converts the temperature a second time before calling the helper
(which does both a third time), while the AUTO branch converts only
twice in total.  At `api60 = 40`, `sgGas = 1`, `sepPsig = 0`,
`sepTempC = −40` (chosen because −40 is the fixed point of °C→°F, so the
exponential factors coincide and only the pressure bases differ: 29.4
versus 44.1 psia), AUTO is strictly smaller. -/
theorem C2_auto_below_explicit_vasquez_beggs :
    calculate_gor2 40 1 0 (-40) "API" < calculate_gor2 40 1 0 (-40) "VASQUEZ_BEGGS" := by
  simp only [calculate_gor2, vasquez_beggs]
  norm_num
  rw [if_neg (by decide)]
  have h1 : ((147 : ℝ) / 5) ^ ((1187 : ℝ) / 1000) < ((441 : ℝ) / 10) ^ ((1187 : ℝ) / 1000) :=
    Real.rpow_lt_rpow (by norm_num) (by norm_num) (by norm_num)
  exact mul_lt_mul_of_pos_right (mul_lt_mul_of_pos_left h1 (by norm_num)) (Real.exp_pos _)

/-- C3: the claim says the STANDING method uses `pAbs = sepPsig + 14.7`,
converted to absolute exactly once.  The code adds 14.7 twice —
`calculate_gor2` once (line 105) and `_standings` again (line 152) — so
at `api60 = 30`, `sgGas = 1`, `sepPsig = 0`, `sepTempC = 0` the code's
value (base 29.4 psia) is strictly larger than the claimed formula's
(base 14.7 psia). -/
theorem C3_standing_double_absolute_conversion :
    standingSpec 30 1 0 0 < calculate_gor2 30 1 0 0 "STANDINGS" := by
  simp only [calculate_gor2, standings, standingSpec]
  norm_num
  rw [if_neg (by decide), if_neg (by decide)]
  have hX : (0 : ℝ) < (10 : ℝ) ^ ((8647 : ℝ) / 25000) := Real.rpow_pos_of_pos (by norm_num) _
  refine Real.rpow_lt_rpow (by positivity) ?_ (by norm_num)
  rw [div_lt_div_iff_of_pos_right (by norm_num)]
  exact mul_lt_mul_of_pos_right (by norm_num) hX

/-- C8 counterexample: the claim says `calculate_averages` returns an
empty mapping for the empty result sequence.  It does not: `if not
results: return` leaves whatever averages were previously stored — here
`[("Q Oil", 5)]`, not the empty mapping. -/
theorem C8_empty_returns_stored :
    calculate_averages [] [("Q Oil", (5 : ℝ))] ≠ ([] : List (String × ℝ)) := by
  simp [calculate_averages]

/-- C8 (amended): on a nonempty result sequence, every numeric field key
of the first result is mapped to the unweighted arithmetic mean of that
field's values over all results (`QOil = [100, 200]` averages to 150);
on the empty sequence the previously stored averages are returned
unchanged (they are an empty mapping only if nothing was stored). -/
theorem C8_averages_mean :
    (∀ stored : List (String × ℝ), calculate_averages [] stored = stored)
    ∧ (∀ (r0 : ResultRow) (rest : List ResultRow) (stored : List (String × ℝ)),
        calculate_averages (r0 :: rest) stored
          = (r0.fields.map Prod.fst).map (fun k =>
              (k, ((r0 :: rest).map (fun r => lookupField r.fields k)).sum
                / (((r0 :: rest).length : ℕ) : ℝ))))
    ∧ calculate_averages [⟨"00:30", [("Q Oil", 100)]⟩, ⟨"01:00", [("Q Oil", 200)]⟩] []
        = [("Q Oil", 150)] := by
  refine ⟨fun stored => rfl, fun r0 rest stored => rfl, ?_⟩
  simp [calculate_averages, lookupField]
  norm_num

lemma processEntry_fst_three (params : TestParameters) (st : MeterState)
    (e : TimeSeriesEntry) (h : params.separation_type = "THREE PHASES") :
    (processEntry params st e).1 = ⟨e.meter_oil, e.meter_water, st.prev_meter_liquid⟩ := by
  simp [processEntry, h]

lemma processEntry_fst_two (params : TestParameters) (st : MeterState)
    (e : TimeSeriesEntry) (h : ¬ params.separation_type = "THREE PHASES") :
    (processEntry params st e).1 = ⟨st.prev_meter_oil, st.prev_meter_water, e.meter_liquid⟩ := by
  simp [processEntry, h]

lemma foldState_cons (params : TestParameters) (st : MeterState) (e : TimeSeriesEntry)
    (es : List TimeSeriesEntry) :
    foldState params st (e :: es) = foldState params (processEntry params st e).1 es := rfl

lemma foldState_take_succ (params : TestParameters) (es : List TimeSeriesEntry)
    (st : MeterState) (i : ℕ) (hi : i < es.length) :
    foldState params st (es.take (i + 1))
      = (processEntry params (foldState params st (es.take i)) (es.get ⟨i, hi⟩)).1 := by
  have h1 : es.take (i + 1) = es.take i ++ [es.get ⟨i, hi⟩] := by
    rw [List.take_succ, List.getElem?_eq_getElem hi]
    simp [List.get_eq_getElem]
  rw [h1]
  unfold foldState
  rw [List.foldl_append]
  rfl

lemma runEntries_get? (params : TestParameters) :
    ∀ (es : List TimeSeriesEntry) (st : MeterState) (i : ℕ),
      (runEntries params st es).get? i
        = (es.get? i).map (fun e =>
            (processEntry params (foldState params st (es.take i)) e).2) := by
  intro es
  induction es with
  | nil => intro st i; simp [runEntries]
  | cons e es ih =>
      intro st i
      cases i with
      | zero => simp [runEntries, foldState]
      | succ j =>
          simp only [runEntries, List.get?_cons_succ, List.take_succ_cons, foldState_cons]
          exact ih (processEntry params st e).1 j

lemma foldState_take_prev_liquid (params : TestParameters)
    (h : ¬ params.separation_type = "THREE PHASES") (es : List TimeSeriesEntry)
    (i : ℕ) (hi : i ≤ es.length) :
    (foldState params ⟨0, 0, 0⟩ (es.take i)).prev_meter_liquid
      = prevOf TimeSeriesEntry.meter_liquid es i := by
  cases i with
  | zero => rfl
  | succ j =>
      have hj : j < es.length := hi
      rw [foldState_take_succ params es ⟨0, 0, 0⟩ j hj, processEntry_fst_two params _ _ h]
      simp [prevOf, List.getElem?_eq_getElem hj]

lemma foldState_take_prev_oil_water (params : TestParameters)
    (h : params.separation_type = "THREE PHASES") (es : List TimeSeriesEntry)
    (i : ℕ) (hi : i ≤ es.length) :
    (foldState params ⟨0, 0, 0⟩ (es.take i)).prev_meter_oil
        = prevOf TimeSeriesEntry.meter_oil es i
    ∧ (foldState params ⟨0, 0, 0⟩ (es.take i)).prev_meter_water
        = prevOf TimeSeriesEntry.meter_water es i := by
  cases i with
  | zero => exact ⟨rfl, rfl⟩
  | succ j =>
      have hj : j < es.length := hi
      rw [foldState_take_succ params es ⟨0, 0, 0⟩ j hj, processEntry_fst_three params _ _ h]
      constructor <;> simp [prevOf, List.getElem?_eq_getElem hj]

lemma processEntry_snd_congr (params : TestParameters) (st st2 : MeterState)
    (e : TimeSeriesEntry)
    (hthree : params.separation_type = "THREE PHASES" →
      st.prev_meter_oil = st2.prev_meter_oil ∧ st.prev_meter_water = st2.prev_meter_water)
    (htwo : ¬ params.separation_type = "THREE PHASES" →
      st.prev_meter_liquid = st2.prev_meter_liquid) :
    (processEntry params st e).2 = (processEntry params st2 e).2 := by
  by_cases h : params.separation_type = "THREE PHASES"
  · obtain ⟨h1, h2⟩ := hthree h
    simp [processEntry, h, h1, h2]
  · simp [processEntry, h, htwo h]


lemma shrinkage_at_zero_pressure (g a : ℝ) : calculate_shrinkage_factor g 0 a = 1 := by
  simp [calculate_shrinkage_factor]

lemma vcf_at_60F (a : ℝ) : calculate_vcf_sep (140 / 9) a = 1 := by
  simp only [calculate_vcf_sep]
  norm_num

/-- C5: `perform_calculations` processes entries strictly in input
order with all carried previous-meter accumulators initialized to 0:
before entry `i` each branch-relevant accumulator holds entry `i−1`'s
cumulative reading (0 for the first entry), afterwards it holds entry
`i`'s reading, and entry `i`'s result row is computed from the carried
state `⟨prev oil, prev water, prev liquid⟩` — i.e. every volume delta is
the current cumulative reading minus the previous one.  A decreasing
cumulative reading (100 bbl then 60 bbl in the worked example) yields the
negative delta −40 bbl, which is processed into the negative rate
`Q Oil = −1920` bbl/d, not an error. -/
theorem C5_cumulative_differencing (params : TestParameters) (es : List TimeSeriesEntry)
    (i : ℕ) (hi : i < es.length) :
    ((params.separation_type = "THREE PHASES" →
        (foldState params ⟨0, 0, 0⟩ (es.take i)).prev_meter_oil
            = prevOf TimeSeriesEntry.meter_oil es i
        ∧ (foldState params ⟨0, 0, 0⟩ (es.take i)).prev_meter_water
            = prevOf TimeSeriesEntry.meter_water es i
        ∧ (foldState params ⟨0, 0, 0⟩ (es.take (i + 1))).prev_meter_oil
            = (es.getD i default).meter_oil
        ∧ (foldState params ⟨0, 0, 0⟩ (es.take (i + 1))).prev_meter_water
            = (es.getD i default).meter_water)
    ∧ (¬ params.separation_type = "THREE PHASES" →
        (foldState params ⟨0, 0, 0⟩ (es.take i)).prev_meter_liquid
            = prevOf TimeSeriesEntry.meter_liquid es i
        ∧ (foldState params ⟨0, 0, 0⟩ (es.take (i + 1))).prev_meter_liquid
            = (es.getD i default).meter_liquid))
    ∧ (perform_calculations params es).get? i
        = some ((processEntry params
            ⟨prevOf TimeSeriesEntry.meter_oil es i, prevOf TimeSeriesEntry.meter_water es i,
              prevOf TimeSeriesEntry.meter_liquid es i⟩ (es.getD i default)).2)
    ∧ ((perform_calculations exampleParams [exampleEntry1, exampleEntry2]).get? 1).map
        CalculationResult.q_oil = some (-1920) := by
  have hgetD : es.getD i default = es.get ⟨i, hi⟩ := by
    simp [List.getD_eq_getElem?_getD, List.getElem?_eq_getElem hi, List.get_eq_getElem]
  refine ⟨⟨fun h3 => ?_, fun h2 => ?_⟩, ?_, ?_⟩
  · obtain ⟨ho, hw⟩ := foldState_take_prev_oil_water params h3 es i hi.le
    refine ⟨ho, hw, ?_, ?_⟩ <;>
      rw [foldState_take_succ params es ⟨0, 0, 0⟩ i hi, processEntry_fst_three params _ _ h3,
        hgetD]
  · refine ⟨foldState_take_prev_liquid params h2 es i hi.le, ?_⟩
    rw [foldState_take_succ params es ⟨0, 0, 0⟩ i hi, processEntry_fst_two params _ _ h2, hgetD]
  · show (runEntries params ⟨0, 0, 0⟩ es).get? i = _
    rw [runEntries_get? params es ⟨0, 0, 0⟩ i, List.get?_eq_get hi, Option.map_some', hgetD]
    refine congrArg some (processEntry_snd_congr params _ _ _ (fun h3 => ?_) (fun h2 => ?_))
    · exact foldState_take_prev_oil_water params h3 es i hi.le
    · exact foldState_take_prev_liquid params h2 es i hi.le
  · have hsep : ¬ exampleParams.separation_type = "THREE PHASES" := by decide
    show ((runEntries exampleParams ⟨0, 0, 0⟩ [exampleEntry1, exampleEntry2]).get? 1).map
        CalculationResult.q_oil = some (-1920)
    simp only [runEntries, List.get?_cons_succ, List.get?_cons_zero, Option.map_some]
    rw [processEntry_fst_two _ _ _ hsep]
    simp only [processEntry, hsep, if_false, usedOilApi60]
    norm_num [exampleParams, exampleEntry1, exampleEntry2, calculate_two_phase_flow,
      shrinkage_at_zero_pressure, vcf_at_60F]


/-- Witness for C5 at the worked two-entry example, index 1. -/
theorem C5_cumulative_differencing_witness :
    ((exampleParams.separation_type = "THREE PHASES" →
        (foldState exampleParams ⟨0, 0, 0⟩ ([exampleEntry1, exampleEntry2].take 1)).prev_meter_oil
            = prevOf TimeSeriesEntry.meter_oil [exampleEntry1, exampleEntry2] 1
        ∧ (foldState exampleParams ⟨0, 0, 0⟩
              ([exampleEntry1, exampleEntry2].take 1)).prev_meter_water
            = prevOf TimeSeriesEntry.meter_water [exampleEntry1, exampleEntry2] 1
        ∧ (foldState exampleParams ⟨0, 0, 0⟩
              ([exampleEntry1, exampleEntry2].take (1 + 1))).prev_meter_oil
            = ([exampleEntry1, exampleEntry2].getD 1 default).meter_oil
        ∧ (foldState exampleParams ⟨0, 0, 0⟩
              ([exampleEntry1, exampleEntry2].take (1 + 1))).prev_meter_water
            = ([exampleEntry1, exampleEntry2].getD 1 default).meter_water)
    ∧ (¬ exampleParams.separation_type = "THREE PHASES" →
        (foldState exampleParams ⟨0, 0, 0⟩
              ([exampleEntry1, exampleEntry2].take 1)).prev_meter_liquid
            = prevOf TimeSeriesEntry.meter_liquid [exampleEntry1, exampleEntry2] 1
        ∧ (foldState exampleParams ⟨0, 0, 0⟩
              ([exampleEntry1, exampleEntry2].take (1 + 1))).prev_meter_liquid
            = ([exampleEntry1, exampleEntry2].getD 1 default).meter_liquid))
    ∧ (perform_calculations exampleParams [exampleEntry1, exampleEntry2]).get? 1
        = some ((processEntry exampleParams
            ⟨prevOf TimeSeriesEntry.meter_oil [exampleEntry1, exampleEntry2] 1,
              prevOf TimeSeriesEntry.meter_water [exampleEntry1, exampleEntry2] 1,
              prevOf TimeSeriesEntry.meter_liquid [exampleEntry1, exampleEntry2] 1⟩
            ([exampleEntry1, exampleEntry2].getD 1 default)).2)
    ∧ ((perform_calculations exampleParams [exampleEntry1, exampleEntry2]).get? 1).map
        CalculationResult.q_oil = some (-1920) :=
  C5_cumulative_differencing exampleParams [exampleEntry1, exampleEntry2] 1 (by norm_num)

end
